import Mathlib

/-!
Verification of the element resolution / wait-state engine and the visual
regression pipeline of `src/ui-automation-core/utilities/visualTestingUtils.ts`.

Modelling conventions:
* JavaScript strings are modelled as `List Char`.
* `number | undefined` parameters are modelled as `Option Int`.
* Fallible calls are modelled with `Except (List Char) _` carrying the thrown
  message; a `try { ... } catch { log }` block that swallows the error is
  modelled by mapping the error case back to a normal return.
* Quote characters that the source interpolates around selector names inside
  log/error messages are omitted from the modelled message strings; the
  interpolated selector itself is kept verbatim.
* The browser engine (Playwright) is an external collaborator; its observable
  behaviour is a parameter (`Env` / `VisualEnv`).
-/

/-! ## Selector translation (`formSelector`, source lines 702-713) -/

/-- The attribute-equality query `[data-testid="<value>"]` produced for
short-form selectors (source line 707). -/
def attrQuery (dataTestId : List Char) : List Char :=
  ("[data-testid=\"".toList ++ dataTestId) ++ ("\"]".toList)

/-- The regex `/^(\/\/|\()/` of source line 703: the selector begins with
`//` or with `(`. -/
def xpathPatternTest (s : List Char) : Bool :=
  (s.take 2 == ['/', '/']) || (s.take 1 == ['('])

/-- Message of the `Invalid selector format: ...` error (source line 711). -/
def invalidSelectorMsg (selector : List Char) : List Char :=
  ("Invalid selector format: ".toList) ++ selector

/-- `formSelector` (source lines 702-713): `selector.startsWith('#')` maps to
an attribute query on the remainder `selector.slice(1)`; otherwise a selector
matching the xpath pattern is returned unchanged; otherwise an error is
thrown. -/
def formSelector (selector : List Char) : Except (List Char) (List Char) :=
  if selector.head? == some '#' then
    Except.ok (attrQuery (selector.drop 1))
  else if xpathPatternTest selector then
    Except.ok selector
  else
    Except.error (invalidSelectorMsg selector)

theorem formSelector_hash_eq (x : List Char) :
    formSelector ('#' :: x) = Except.ok (attrQuery x) := rfl

theorem xpath_head_ne_hash (s : List Char) (h : xpathPatternTest s = true) :
    (s.head? == some '#') = false := by
  cases s with
  | nil => simp [xpathPatternTest] at h
  | cons a t =>
    simp only [xpathPatternTest, List.take, Bool.or_eq_true, beq_iff_eq] at h
    rcases h with h | h
    · cases t with
      | nil => simp at h
      | cons b u =>
        simp only [List.take, List.cons.injEq] at h
        simp [List.head?, h.1]
    · simp only [List.take, List.cons.injEq] at h
      simp [List.head?, h.1]

/-! ## Wait-state engine (`waitForElementState`, source lines 232-256) -/

/-- `ElementWaitState` enum (source lines 125-129). -/
inductive ElementWaitState
  | PRESENT
  | VISIBLE
  | INVISIBLE
deriving DecidableEq

/-- `let defaultTimeout: 30000` (source line 122).  This is a TypeScript type
annotation, not an assignment: the variable is declared with literal type
`30000` but never initialised, so its runtime value is `undefined`, modelled
as `none`. -/
def defaultTimeout : Option Int := none

/-- The expression `timeoutMs !== undefined && timeoutMs > 0 ? timeoutMs :
defaultTimeout` (source lines 236, 399, 423). -/
def resolveTimeout (timeoutMs : Option Int) : Option Int :=
  match timeoutMs with
  | some t => if 0 < t then some t else defaultTimeout
  | none => defaultTimeout

/-- Duration of `page.waitForTimeout(timeout)` in milliseconds.  An
`undefined` argument reaches `setTimeout` as delay `undefined`, which
JavaScript treats as `0`. -/
def timerDuration : Option Int → Nat
  | some t => t.toNat
  | none => 0

/-- Resolution time of `Promise.race` between the condition-wait (resolving at
`conditionAt`, `none` meaning never) and the timer (resolving at `timerAt`),
source line 251. -/
def raceReturnTime (conditionAt : Option Nat) (timerAt : Nat) : Nat :=
  match conditionAt with
  | some tc => min tc timerAt
  | none => timerAt

/-- Observable behaviour of the external browser engine for one page. -/
structure Env where
  /-- Time at which `page.waitForSelector(query, state)` resolves for a given
  concrete query and wait state; `none` means the condition is never
  satisfied. -/
  conditionResolvesAt : List Char → ElementWaitState → Option Nat
  /-- An underlying engine fault (e.g. the page was closed) that makes engine
  calls reject. -/
  engineFault : Bool
  /-- Whether `page.$(query)` finds an element for a concrete query. -/
  present : List Char → Bool
  /-- `page.$eval(query, el => el.checked)`: `some b` when an element matching
  `query` exists and its `checked` property is `b`; `none` when `$eval` throws
  because no element matches. -/
  checkedAt : List Char → Option Bool
  /-- `property.jsonValue()` for the element found by a concrete query;
  `none` models a `null` property value. -/
  jsonValueAt : List Char → Option (List Char)

/-- Outcome of `waitForElementState`.  The source returns `void`; `ok` records
as a ghost observation the time at which the racing call resolved, and `err`
carries the thrown message. -/
inductive WaitOutcome
  | ok (returnTime : Nat)
  | err (msg : List Char)
deriving DecidableEq

/-- Message of an engine-fault rejection. -/
def engineFaultMsg : List Char := "Target page, context or browser has been closed".toList

/-- `waitForElementState` (source lines 232-256): assign
`formedSelector = formSelector(selector)` (propagating its error), build the
state-specific `waitForSelector` promise, and `Promise.race` it against
`page.waitForTimeout(timeout)`.  The `catch` block rethrows, so engine faults
propagate.  The `default: throw` branch of the `switch` is unreachable for the
three enum values.  The second component is the updated module-level
`formedSelector` variable (source line 123), threaded explicitly. -/
def waitForElementState (env : Env) (fsel : List Char) (selector : List Char)
    (waitState : ElementWaitState) (timeoutMs : Option Int) :
    WaitOutcome × List Char :=
  match formSelector selector with
  | Except.error e => (WaitOutcome.err e, fsel)
  | Except.ok formed =>
    if env.engineFault then (WaitOutcome.err engineFaultMsg, formed)
    else
      let timeout := resolveTimeout timeoutMs
      (WaitOutcome.ok
        (raceReturnTime (env.conditionResolvesAt formed waitState)
          (timerDuration timeout)), formed)

/-! ## Element access (`getElement`, source lines 397-411) -/

/-- Result of `getElement`: `page.$` returned a handle, returned `null`, or
an error was thrown (and rethrown by the `catch`). -/
inductive GetElemResult
  | found
  | absent
  | err (msg : List Char)
deriving DecidableEq

/-- `getElement` (source lines 397-411): recompute the timeout (same
expression as line 236), default the wait state to `VISIBLE`, call
`waitForElementState`, then `page.$(formedSelector)`; a `null` element is
returned as-is, errors are rethrown. -/
def getElement (env : Env) (fsel : List Char) (selector : List Char)
    (waitState : Option ElementWaitState) (timeoutMs : Option Int) :
    GetElemResult × List Char :=
  let timeout := resolveTimeout timeoutMs
  let elementWaitState := waitState.getD ElementWaitState.VISIBLE
  match waitForElementState env fsel selector elementWaitState timeout with
  | (WaitOutcome.err e, f2) => (GetElemResult.err e, f2)
  | (WaitOutcome.ok _, f2) =>
    (if env.present f2 then GetElemResult.found else GetElemResult.absent, f2)

theorem getElement_absent (env : Env) (fsel selector q : List Char)
    (waitState : Option ElementWaitState) (timeoutMs : Option Int)
    (hq : formSelector selector = Except.ok q) (hf : env.engineFault = false)
    (hp : env.present q = false) :
    getElement env fsel selector waitState timeoutMs = (GetElemResult.absent, q) := by
  simp [getElement, waitForElementState, hq, hf, hp]

theorem getElement_found (env : Env) (fsel selector q : List Char)
    (waitState : Option ElementWaitState) (timeoutMs : Option Int)
    (hq : formSelector selector = Except.ok q) (hf : env.engineFault = false)
    (hp : env.present q = true) :
    getElement env fsel selector waitState timeoutMs = (GetElemResult.found, q) := by
  simp [getElement, waitForElementState, hq, hf, hp]

/-! ## Claim theorems for the selector translator -/

/-- C6: for every selector of the form `#X`, `formSelector` returns the
attribute-equality query `[data-testid="X"]` whose value is exactly the
remainder `X`, with no transformation beyond removing the leading marker. -/
theorem formSelector_hash_attr_query (x : List Char) :
    formSelector ('#' :: x) = Except.ok (attrQuery x) :=
  formSelector_hash_eq x

/-- C7: every selector matching the structural-query pattern (leading `//` or
`(`) is returned unchanged by `formSelector`. -/
theorem formSelector_xpath_identity (s : List Char)
    (h : xpathPatternTest s = true) : formSelector s = Except.ok s := by
  unfold formSelector
  rw [xpath_head_ne_hash s h, h]
  rfl

/-- C7 witness: the concrete structural selector `//div` is returned
unchanged. -/
theorem formSelector_xpath_identity_witness :
    formSelector ('/' :: '/' :: ['d', 'i', 'v']) =
      Except.ok ('/' :: '/' :: ['d', 'i', 'v']) :=
  formSelector_xpath_identity ('/' :: '/' :: ['d', 'i', 'v']) (by decide)

/-- C8: a selector that neither starts with the `#` marker nor matches the
structural-query pattern makes `formSelector` fail with the
`Invalid selector format` error, whose message ends with (names) the
offending selector; no fallback is applied. -/
theorem formSelector_invalid_error (s : List Char)
    (h1 : s.head? ≠ some '#') (h2 : xpathPatternTest s = false) :
    formSelector s = Except.error (invalidSelectorMsg s) ∧
      List.IsSuffix s (invalidSelectorMsg s) := by
  constructor
  · unfold formSelector
    rw [beq_eq_false_iff_ne.mpr h1, h2]
    rfl
  · exact ⟨"Invalid selector format: ".toList, rfl⟩

/-- C8 witness: the concrete selector `div` (plain CSS, neither form) is
rejected with an error naming it. -/
theorem formSelector_invalid_error_witness :
    formSelector (['d', 'i', 'v']) =
      Except.error (invalidSelectorMsg (['d', 'i', 'v'])) ∧
      List.IsSuffix (['d', 'i', 'v']) (invalidSelectorMsg (['d', 'i', 'v'])) :=
  formSelector_invalid_error (['d', 'i', 'v']) (by decide) (by decide)

/-! ## Claim theorems for the wait engine -/

/-- C1: for a wait request with a valid selector whose condition is never
satisfied and no engine fault, `waitForElementState` resolves normally at the
timer duration, raising no error (the `ok` outcome carries no signal about
the condition); and conversely every erroring call comes from an invalid
selector or an engine fault. -/
theorem waitForElementState_silent_timeout :
    (∀ (env : Env) (fsel selector q : List Char) (waitState : ElementWaitState)
      (t : Int), formSelector selector = Except.ok q →
      env.conditionResolvesAt q waitState = none →
      env.engineFault = false → 0 < t →
      (waitForElementState env fsel selector waitState (some t)).1 =
        WaitOutcome.ok t.toNat) ∧
    (∀ (env : Env) (fsel selector : List Char) (waitState : ElementWaitState)
      (timeoutMs : Option Int) (e : List Char),
      (waitForElementState env fsel selector waitState timeoutMs).1 =
        WaitOutcome.err e →
      formSelector selector = Except.error e ∨ env.engineFault = true) := by
  constructor
  · intro env fsel selector q waitState t hq hcond hfault ht
    simp [waitForElementState, hq, hfault, resolveTimeout, ht, timerDuration,
      raceReturnTime, hcond]
  · intro env fsel selector waitState timeoutMs e h
    cases hq : formSelector selector with
    | error m =>
      rw [waitForElementState, hq] at h
      simp only [WaitOutcome.err.injEq] at h
      exact Or.inl (by rw [h])
    | ok q =>
      cases hfault : env.engineFault with
      | true => exact Or.inr rfl
      | false => rw [waitForElementState, hq] at h; simp [hfault] at h

/-- An engine in which no wait condition is ever satisfied, no element is
present, and there is no engine fault. -/
def env0 : Env :=
  ⟨fun _ _ => none, false, fun _ => false, fun _ => none, fun _ => none⟩

/-- C1 witness: a concrete never-satisfied wait with a 5000 ms timeout
resolves normally at 5000 ms. -/
theorem waitForElementState_silent_timeout_witness :
    (waitForElementState env0 [] ('#' :: ['a']) ElementWaitState.VISIBLE
      (some 5000)).1 = WaitOutcome.ok 5000 :=
  waitForElementState_silent_timeout.1 env0 [] ('#' :: ['a'])
    (attrQuery ['a']) ElementWaitState.VISIBLE 5000 rfl rfl rfl (by decide)

/-- C2 (code bug): `let defaultTimeout: 30000` is a type annotation, never an
assignment, so `defaultTimeout` is `undefined` (`none`), and a wait request
with absent or non-positive `timeoutMs` races against a timer of duration 0
(the coerced `undefined` delay), not 30 000 ms. -/
theorem defaultTimeout_never_assigned :
    defaultTimeout = none ∧
    resolveTimeout none = none ∧
    resolveTimeout (some 0) = none ∧
    resolveTimeout (some (-1)) = none ∧
    (waitForElementState env0 [] ('#' :: ['a']) ElementWaitState.VISIBLE
      none).1 = WaitOutcome.ok 0 ∧
    (waitForElementState env0 [] ('#' :: ['a']) ElementWaitState.VISIBLE
      none).1 ≠ WaitOutcome.ok 30000 := by
  refine ⟨rfl, rfl, rfl, rfl, rfl, by decide⟩

/-! ## Action wrappers (source lines 265-630) -/

/-- Error outcome of an action wrapper: the wrapper either returned normally
or let an error propagate to its caller. -/
inductive ActionOutcome
  | ok
  | raised (msg : List Char)
deriving DecidableEq

/-- The `Element with selector '<s>' not found.` message thrown by `clearText`
(line 291), `keyPress` (line 314) and `getText` (line 338); surrounding
quotes omitted. -/
def elementNotFoundMsg (selector : List Char) : List Char :=
  ("Element with selector ".toList ++ selector) ++ (" not found.".toList)

/-- `clearText` (source lines 284-297): `getElement`, `fill` when non-null,
otherwise throw `Element ... not found`; the `catch` rethrows. -/
def clearText (env : Env) (fsel : List Char) (selector : List Char)
    (waitState : Option ElementWaitState) (timeoutMs : Option Int) :
    ActionOutcome × List Char :=
  match getElement env fsel selector waitState timeoutMs with
  | (GetElemResult.found, f2) => (ActionOutcome.ok, f2)
  | (GetElemResult.absent, f2) => (ActionOutcome.raised (elementNotFoundMsg selector), f2)
  | (GetElemResult.err e, f2) => (ActionOutcome.raised e, f2)

/-- `setText` (source lines 265-275): wait for `VISIBLE`, `clearText`, then
`page.type(formedSelector, text)`; the `catch` block only logs, so every
error (including `clearText`'s not-found error) is swallowed and the call
returns normally. -/
def setText (env : Env) (fsel : List Char) (selector : List Char)
    (text : List Char) (timeoutMs : Option Int) : ActionOutcome × List Char :=
  match waitForElementState env fsel selector ElementWaitState.VISIBLE timeoutMs with
  | (WaitOutcome.err _, f2) => (ActionOutcome.ok, f2)
  | (WaitOutcome.ok _, f2) =>
    match clearText env f2 selector (some ElementWaitState.VISIBLE) timeoutMs with
    | (ActionOutcome.raised _, f3) => (ActionOutcome.ok, f3)
    | (ActionOutcome.ok, f3) => (ActionOutcome.ok, f3)

/-- `keyPress` (source lines 307-320): same absence policy as `clearText`;
the `key` argument does not influence control flow. -/
def keyPress (env : Env) (fsel : List Char) (selector : List Char)
    (key : List Char) (waitState : Option ElementWaitState)
    (timeoutMs : Option Int) : ActionOutcome × List Char :=
  match getElement env fsel selector waitState timeoutMs with
  | (GetElemResult.found, f2) => (ActionOutcome.ok, f2)
  | (GetElemResult.absent, f2) => (ActionOutcome.raised (elementNotFoundMsg selector), f2)
  | (GetElemResult.err e, f2) => (ActionOutcome.raised e, f2)

/-- `getText` (source lines 330-344): returns `textContent` when the element
is found, throws `Element ... not found` when it is `null`; `catch`
rethrows.  The returned text is abstracted; only the outcome is modelled. -/
def getText (env : Env) (fsel : List Char) (selector : List Char)
    (waitState : Option ElementWaitState) (timeoutMs : Option Int) :
    ActionOutcome × List Char :=
  match getElement env fsel selector waitState timeoutMs with
  | (GetElemResult.found, f2) => (ActionOutcome.ok, f2)
  | (GetElemResult.absent, f2) => (ActionOutcome.raised (elementNotFoundMsg selector), f2)
  | (GetElemResult.err e, f2) => (ActionOutcome.raised e, f2)

/-- `click` (source lines 355-366): `getElement`, and `element.click()` only
when the handle is non-null — there is NO else branch, so an absent element
makes `click` return normally without raising; the `catch` rethrows real
errors.  `modifiers`/`button` do not influence control flow. -/
def click (env : Env) (fsel : List Char) (selector : List Char)
    (waitState : Option ElementWaitState) (timeoutMs : Option Int) :
    ActionOutcome × List Char :=
  match getElement env fsel selector waitState timeoutMs with
  | (GetElemResult.found, f2) => (ActionOutcome.ok, f2)
  | (GetElemResult.absent, f2) => (ActionOutcome.ok, f2)
  | (GetElemResult.err e, f2) => (ActionOutcome.raised e, f2)

/-- The `TypeError` raised by `await element.getProperty(...)` when `element`
is `null` (source line 450). -/
def typeErrorNullMsg : List Char :=
  "TypeError: Cannot read properties of null (reading getProperty)".toList

/-- The `Unable to fetch the attriubte ...` message of source line 456
(typo preserved from the source); surrounding quotes omitted. -/
def unableToFetchMsg (selector : List Char) : List Char :=
  ("Unable to fetch the attriubte for the element with selector ".toList
    ++ selector) ++ (".".toList)

/-- `getPropertyValue` (source lines 446-462): `getElement`, then
`element.getProperty(attributeName)` — a `null` element makes this line throw
a `TypeError`, which the `catch` rethrows; a `null` property value throws the
explicit `Unable to fetch` error. -/
def getPropertyValue (env : Env) (fsel : List Char) (selector : List Char)
    (attributeName : List Char) (waitState : Option ElementWaitState)
    (timeoutMs : Option Int) : ActionOutcome × List Char :=
  match getElement env fsel selector waitState timeoutMs with
  | (GetElemResult.err e, f2) => (ActionOutcome.raised e, f2)
  | (GetElemResult.absent, f2) => (ActionOutcome.raised typeErrorNullMsg, f2)
  | (GetElemResult.found, f2) =>
    match env.jsonValueAt f2 with
    | some _ => (ActionOutcome.ok, f2)
    | none => (ActionOutcome.raised (unableToFetchMsg selector), f2)

/-- `selectCheckbox` (source lines 577-588): `check()` only when non-null,
and the `catch` only logs — every failure is swallowed, so the call always
returns normally. -/
def selectCheckbox (env : Env) (fsel : List Char) (selector : List Char)
    (waitState : Option ElementWaitState) (timeoutMs : Option Int) :
    ActionOutcome × List Char :=
  match getElement env fsel selector waitState timeoutMs with
  | (GetElemResult.found, f2) => (ActionOutcome.ok, f2)
  | (GetElemResult.absent, f2) => (ActionOutcome.ok, f2)
  | (GetElemResult.err _, f2) => (ActionOutcome.ok, f2)

/-- `unselectCheckbox` (source lines 597-608): same swallowing policy as
`selectCheckbox`. -/
def unselectCheckbox (env : Env) (fsel : List Char) (selector : List Char)
    (waitState : Option ElementWaitState) (timeoutMs : Option Int) :
    ActionOutcome × List Char :=
  match getElement env fsel selector waitState timeoutMs with
  | (GetElemResult.found, f2) => (ActionOutcome.ok, f2)
  | (GetElemResult.absent, f2) => (ActionOutcome.ok, f2)
  | (GetElemResult.err _, f2) => (ActionOutcome.ok, f2)

/-- `selectDropdownOption` (source lines 618-630): same swallowing policy;
the `option` argument does not influence control flow. -/
def selectDropdownOption (env : Env) (fsel : List Char) (selector : List Char)
    (option : List Char) (waitState : Option ElementWaitState)
    (timeoutMs : Option Int) : ActionOutcome × List Char :=
  match getElement env fsel selector waitState timeoutMs with
  | (GetElemResult.found, f2) => (ActionOutcome.ok, f2)
  | (GetElemResult.absent, f2) => (ActionOutcome.ok, f2)
  | (GetElemResult.err _, f2) => (ActionOutcome.ok, f2)

/-! ## Claim theorems for the per-action absence policy (C3) -/

/-- C3 counterexample: with a valid selector whose element is absent and no
engine fault, `click` and `setText` both return normally — neither raises the
`ElementNotFoundError` the claim requires of them. -/
theorem click_setText_absent_no_raise_cex :
    (click env0 [] ('#' :: ['a']) none none).1 = ActionOutcome.ok ∧
    (setText env0 [] ('#' :: ['a']) [] none).1 = ActionOutcome.ok := by
  constructor <;> rfl

/-- C3 amended: on an absent element, `clearText`, `keyPress` and `getText`
raise the explicit not-found error; `getPropertyValue` raises, but a
null-dereference `TypeError` rather than the explicit error; `click` silently
does nothing; `setText` logs and swallows; and the three toggle-style
wrappers log and swallow. -/
theorem action_wrappers_absence_policy (env : Env)
    (fsel selector q text key attr opt : List Char)
    (waitState : Option ElementWaitState) (timeoutMs : Option Int)
    (hq : formSelector selector = Except.ok q)
    (hf : env.engineFault = false) (hp : env.present q = false) :
    (clearText env fsel selector waitState timeoutMs).1 =
        ActionOutcome.raised (elementNotFoundMsg selector) ∧
    (keyPress env fsel selector key waitState timeoutMs).1 =
        ActionOutcome.raised (elementNotFoundMsg selector) ∧
    (getText env fsel selector waitState timeoutMs).1 =
        ActionOutcome.raised (elementNotFoundMsg selector) ∧
    (getPropertyValue env fsel selector attr waitState timeoutMs).1 =
        ActionOutcome.raised typeErrorNullMsg ∧
    (click env fsel selector waitState timeoutMs).1 = ActionOutcome.ok ∧
    (setText env fsel selector text timeoutMs).1 = ActionOutcome.ok ∧
    (selectCheckbox env fsel selector waitState timeoutMs).1 = ActionOutcome.ok ∧
    (unselectCheckbox env fsel selector waitState timeoutMs).1 = ActionOutcome.ok ∧
    (selectDropdownOption env fsel selector opt waitState timeoutMs).1 =
        ActionOutcome.ok := by
  have hget : ∀ (f : List Char) (ws : Option ElementWaitState) (tm : Option Int),
      getElement env f selector ws tm = (GetElemResult.absent, q) :=
    fun f ws tm => getElement_absent env f selector q ws tm hq hf hp
  refine ⟨?_, ?_, ?_, ?_, ?_, ?_, ?_, ?_, ?_⟩ <;>
    simp [clearText, keyPress, getText, getPropertyValue, click, setText,
      selectCheckbox, unselectCheckbox, selectDropdownOption,
      waitForElementState, hq, hf, hget]

/-- C3 amended witness: the policy evaluated at a concrete absent element. -/
theorem action_wrappers_absence_policy_witness :
    (clearText env0 [] ('#' :: ['a']) none none).1 =
      ActionOutcome.raised (elementNotFoundMsg ('#' :: ['a'])) :=
  (action_wrappers_absence_policy env0 [] ('#' :: ['a']) (attrQuery ['a'])
    [] [] [] [] none none rfl rfl rfl).1

/-! ## `isElementChecked` (source lines 549-568) -/

/-- The `Element with selector '<s>' was not present.` message (source
line 562); surrounding quotes omitted. -/
def notPresentMsg (selector : List Char) : List Char :=
  ("Element with selector ".toList ++ selector) ++ (" was not present.".toList)

/-- The rejection of `page.$eval(selector, ...)` when no element matches the
query (dollar-eval throws); message abbreviated. -/
def evalNoElementMsg (selector : List Char) : List Char :=
  ("failed to find element matching selector ".toList) ++ selector

/-- Result of `isElementChecked`: the boolean it resolves with, or the
message of the error it rethrows. -/
inductive CheckResult
  | ok (b : Bool)
  | err (msg : List Char)
deriving DecidableEq

/-- `isElementChecked` (source lines 549-568): resolve the element through
`getElement` (which waits on the TRANSLATED query), then read the property
with `this.page.$eval(selector, el => el.checked)` — note the RAW
caller-supplied `selector`, not `formedSelector`.  A `null` element throws
the explicit not-present error; the `catch` rethrows. -/
def isElementChecked (env : Env) (fsel : List Char) (selector : List Char)
    (timeoutMs : Option Int) : CheckResult × List Char :=
  match getElement env fsel selector (some ElementWaitState.VISIBLE) timeoutMs with
  | (GetElemResult.err e, f2) => (CheckResult.err e, f2)
  | (GetElemResult.absent, f2) => (CheckResult.err (notPresentMsg selector), f2)
  | (GetElemResult.found, f2) =>
    match env.checkedAt selector with
    | none => (CheckResult.err (evalNoElementMsg selector), f2)
    | some b => (CheckResult.ok b, f2)

/-- C10: for a short-form selector `#X`, `isElementChecked` resolves and waits
through the translated attribute query (the presence hypothesis constrains
only `attrQuery x`), but reads the checked property by re-querying with the
raw literal `#X` (the property hypothesis constrains only `'#' :: x`); the
result is whatever the raw query reports. -/
theorem isElementChecked_raw_selector_read (env : Env) (fsel x : List Char)
    (timeoutMs : Option Int) (b : Bool)
    (hf : env.engineFault = false)
    (hp : env.present (attrQuery x) = true)
    (hc : env.checkedAt ('#' :: x) = some b) :
    (isElementChecked env fsel ('#' :: x) timeoutMs).1 = CheckResult.ok b := by
  have hget := getElement_found env fsel ('#' :: x) (attrQuery x)
    (some ElementWaitState.VISIBLE) timeoutMs (formSelector_hash_eq x) hf hp
  simp [isElementChecked, hget, hc]

/-- An engine where the translated query `[data-testid="a"]` finds a visible
element, the raw query `#a` reports `checked = true`, and the translated
query would report `checked = false` — distinguishing which query the
property read uses. -/
def envRaw : Env :=
  ⟨fun _ _ => none, false, fun q => q == attrQuery ['a'],
    fun s => if s = '#' :: ['a'] then some true else some false,
    fun _ => none⟩

/-- C10 witness: on `envRaw` the call resolves with the value reported by the
raw selector (`true`), not the one the translated query would give
(`false`). -/
theorem isElementChecked_raw_selector_read_witness :
    (isElementChecked envRaw [] ('#' :: ['a']) none).1 = CheckResult.ok true ∧
    envRaw.checkedAt (attrQuery ['a']) = some false :=
  ⟨isElementChecked_raw_selector_read envRaw [] ['a'] none true rfl
    (by decide) (by decide), by decide⟩

/-! ## Visual regression pipeline (source lines 8-117) -/

/-- A decoded PNG image: dimensions plus the RGBA byte buffer. -/
structure PNGImage where
  width : Nat
  height : Nat
  data : List Nat
deriving DecidableEq

/-- Content of a file on disk: a decodable PNG, or bytes that
`PNG.sync.read` rejects. -/
inductive FileContent
  | png (img : PNGImage)
  | corrupt
deriving DecidableEq

/-- The filesystem under the report root, as a map from path to content. -/
abbrev FS : Type := List Char → Option FileContent

/-- `fs.writeFileSync` / `fs.copyFileSync` destination update. -/
def fsWrite (fs : FS) (p : List Char) (c : FileContent) : FS :=
  fun q => if q = p then some c else fs q

/-- External collaborators of the visual pipeline. -/
structure VisualEnv where
  /-- `new Date().toISOString().split('T')[0]` — the current date stamp. -/
  currentDate : List Char
  /-- `page.screenshot()`: the image the engine captures, or `none` when the
  engine fails (page closed). -/
  screenshot : Option PNGImage
  /-- The differing-pixel count computed by the external `pixelmatch` library
  for two size-matched buffers under `settings.threshold` (0.1). -/
  diffPixels : PNGImage → PNGImage → Nat
  /-- The bytes `pixelmatch` writes into the diff output buffer. -/
  diffData : PNGImage → PNGImage → List Nat

/-- `settings.reportPath` (source line 9); the `__dirname`-relative prefix is
abstracted to the trailing fixed segments. -/
def reportPath : List Char := "reports/visual-tests".toList

/-- `settings.baselineDir` (source line 10). -/
def baselineDir : List Char := "baseline".toList

/-- `settings.currentDir` (source line 11). -/
def currentDir : List Char := "current".toList

/-- `settings.diffDir` (source line 12). -/
def diffDir : List Char := "diff".toList

/-- `path.join` of two segments. -/
def pathJoin (a b : List Char) : List Char := a ++ '/' :: b

/-- `<testName>-baseline.png` (source lines 37, 99). -/
def baselineFilename (testName : List Char) : List Char :=
  testName ++ ("-baseline.png".toList)

/-- `<testName>-current-<date>.png` (source lines 38, 100). -/
def currentFilename (testName date : List Char) : List Char :=
  ((testName ++ ("-current-".toList)) ++ date) ++ (".png".toList)

/-- `<testName>-diff-<date>.png` (source line 101). -/
def diffFilename (testName date : List Char) : List Char :=
  ((testName ++ ("-diff-".toList)) ++ date) ++ (".png".toList)

/-- Full path of the baseline image of a test. -/
def baselinePath (testName : List Char) : List Char :=
  pathJoin (pathJoin reportPath baselineDir) (baselineFilename testName)

/-- Full path of the date-stamped current image of a test. -/
def currentPath (testName date : List Char) : List Char :=
  pathJoin (pathJoin reportPath currentDir) (currentFilename testName date)

/-- Full path of the date-stamped diff image of a test. -/
def diffPath (testName date : List Char) : List Char :=
  pathJoin (pathJoin reportPath diffDir) (diffFilename testName date)

/-- `ENOENT` error of `fs.readFileSync` on a missing file. -/
def enoentMsg (p : List Char) : List Char :=
  ("ENOENT: no such file or directory, open ".toList) ++ p

/-- Decode failure of `PNG.sync.read`. -/
def decodeErrMsg : List Char := "Invalid file signature".toList

/-- `PNG.sync.read(fs.readFileSync(p))` (source lines 68-69). -/
def readPNG (fs : FS) (p : List Char) : Except (List Char) PNGImage :=
  match fs p with
  | none => Except.error (enoentMsg p)
  | some FileContent.corrupt => Except.error decodeErrMsg
  | some (FileContent.png img) => Except.ok img

/-- The `Image sizes do not match.` error of the `pixelmatch` library. -/
def sizeMismatchMsg : List Char := "Image sizes do not match.".toList

/-- The `Image data size does not match width/height.` error of
`pixelmatch`. -/
def dataSizeMsg : List Char := "Image data size does not match width/height.".toList

/-- The external `pixelmatch(img1.data, img2.data, diff.data, width, height,
options)` call (source line 78): throws when the two buffers (or the output
buffer) differ in length, or when the buffer length disagrees with
`width * height * 4`; otherwise returns the differing-pixel count. -/
def pixelmatch (env : VisualEnv) (img1 img2 : PNGImage)
    (outputLen width height : Nat) : Except (List Char) Nat :=
  if img1.data.length ≠ img2.data.length ∨ outputLen ≠ img1.data.length then
    Except.error sizeMismatchMsg
  else if img1.data.length ≠ width * height * 4 then
    Except.error dataSizeMsg
  else
    Except.ok (env.diffPixels img1 img2)

/-- The `try` body of `compareScreenshots` (source lines 67-82): decode both
images, take `width`/`height` from the FIRST image, allocate the diff buffer
(`new PNG({width, height})`, length `width * height * 4`), run `pixelmatch`,
write the diff artifact, and resolve with `numDiffPixels === 0`. -/
def compareScreenshotsTry (env : VisualEnv) (fs : FS)
    (image1 image2 diffImage : List Char) : Except (List Char) (Bool × FS) :=
  match readPNG fs image1 with
  | Except.error e => Except.error e
  | Except.ok img1 =>
    match readPNG fs image2 with
    | Except.error e => Except.error e
    | Except.ok img2 =>
      let width := img1.width
      let height := img1.height
      let diffLen := width * height * 4
      match pixelmatch env img1 img2 diffLen width height with
      | Except.error e => Except.error e
      | Except.ok numDiffPixels =>
        Except.ok (numDiffPixels == 0,
          fsWrite fs diffImage
            (FileContent.png ⟨width, height, env.diffData img1 img2⟩))

/-- `compareScreenshots` (source lines 62-87): the whole body is wrapped in
`try { ... } catch { log; return false }`, so every internal failure resolves
the call with `false` and leaves the filesystem as the failure left it (here:
unchanged, since the diff write is the last step). -/
def compareScreenshots (env : VisualEnv) (fs : FS)
    (image1 image2 diffImage : List Char) : Bool × FS :=
  match compareScreenshotsTry env fs image1 image2 diffImage with
  | Except.ok r => r
  | Except.error _ => (false, fs)

/-- Engine failure of `page.screenshot`. -/
def screenshotFailMsg : List Char :=
  "page.screenshot: Target page, context or browser has been closed".toList

/-- `captureScreenshot` (source lines 51-60): `page.screenshot({ path })`
into the current directory; the `catch` logs and rethrows. -/
def captureScreenshot (env : VisualEnv) (fs : FS) (filename : List Char) :
    Except (List Char) FS :=
  match env.screenshot with
  | none => Except.error screenshotFailMsg
  | some img =>
    Except.ok (fsWrite fs (pathJoin (pathJoin reportPath currentDir) filename)
      (FileContent.png img))

/-- `createBaselineImage` (source lines 34-49): capture the current
screenshot, then `fs.copyFileSync(currentImage, baselineImage)`; the `catch`
only logs, so any failure leaves the function returning normally with the
filesystem as the failure left it. -/
def createBaselineImage (env : VisualEnv) (fs : FS) (testName : List Char) : FS :=
  let baselineImage := baselinePath testName
  let currentImage := currentPath testName env.currentDate
  match captureScreenshot env fs (currentFilename testName env.currentDate) with
  | Except.error _ => fs
  | Except.ok fs1 =>
    match fs1 currentImage with
    | none => fs1
    | some c => fsWrite fs1 baselineImage c

/-- `runVisualTests` (source lines 96-117): when no baseline exists, create
it (without pixel comparison); when a baseline exists, capture the current
image and compare — a non-identical result is only logged.  The `catch` only
logs, so `captureScreenshot` failures are swallowed. -/
def runVisualTests (env : VisualEnv) (fs : FS) (testName : List Char)
    (timeout : Nat) : FS :=
  let baselineImage := baselinePath testName
  let currentImage := currentPath testName env.currentDate
  let diffImage := diffPath testName env.currentDate
  if (fs baselineImage).isSome = false then
    createBaselineImage env fs testName
  else
    match captureScreenshot env fs (currentFilename testName env.currentDate) with
    | Except.error _ => fs
    | Except.ok fs1 =>
      (compareScreenshots env fs1 baselineImage currentImage diffImage).2

/-! ## Path disjointness of the three report directories -/

theorem drop_reportPath (rest : List Char) :
    (reportPath ++ '/' :: rest).drop (reportPath.length + 1) = rest := by
  have h : reportPath ++ '/' :: rest = (reportPath ++ ['/']) ++ rest := by simp
  have hl : (reportPath ++ ['/']).length = reportPath.length + 1 := by simp
  rw [h, ← hl, List.drop_left]

theorem pathJoin_discriminant (d f : List Char) :
    ((pathJoin (pathJoin reportPath d) f).drop (reportPath.length + 1)).head?
      = (d ++ '/' :: f).head? := by
  simp only [pathJoin, List.append_assoc, List.cons_append]
  rw [drop_reportPath]

theorem baselinePath_ne_currentPath (tn1 tn2 date : List Char) :
    baselinePath tn1 ≠ currentPath tn2 date := by
  intro h
  have h2 := congrArg
    (fun p => (List.drop (reportPath.length + 1) p).head?) h
  simp only [baselinePath, currentPath] at h2
  rw [pathJoin_discriminant, pathJoin_discriminant] at h2
  have hb : (baselineDir ++ '/' :: baselineFilename tn1).head? = some 'b' := rfl
  have hc : (currentDir ++ '/' :: currentFilename tn2 date).head? = some 'c' := rfl
  rw [hb, hc] at h2
  exact absurd h2 (by decide)

theorem baselinePath_ne_diffPath (tn1 tn2 date : List Char) :
    baselinePath tn1 ≠ diffPath tn2 date := by
  intro h
  have h2 := congrArg
    (fun p => (List.drop (reportPath.length + 1) p).head?) h
  simp only [baselinePath, diffPath] at h2
  rw [pathJoin_discriminant, pathJoin_discriminant] at h2
  have hb : (baselineDir ++ '/' :: baselineFilename tn1).head? = some 'b' := rfl
  have hd : (diffDir ++ '/' :: diffFilename tn2 date).head? = some 'd' := rfl
  rw [hb, hd] at h2
  exact absurd h2 (by decide)

/-- A successful `compareScreenshotsTry` only ever writes the diff path. -/
theorem compareScreenshotsTry_ok_shape (env : VisualEnv) (fs : FS)
    (p1 p2 pd : List Char) (r : Bool × FS)
    (h : compareScreenshotsTry env fs p1 p2 pd = Except.ok r) :
    ∃ c, r.2 = fsWrite fs pd c := by
  unfold compareScreenshotsTry at h
  split at h
  · exact Except.noConfusion h
  · split at h
    · exact Except.noConfusion h
    · dsimp only at h
      split at h
      · exact Except.noConfusion h
      · simp only [Except.ok.injEq] at h
        exact ⟨_, by rw [← h]⟩

theorem compareScreenshots_preserves_other_paths (env : VisualEnv) (fs : FS)
    (p1 p2 pd q : List Char) (hq : q ≠ pd) :
    (compareScreenshots env fs p1 p2 pd).2 q = fs q := by
  unfold compareScreenshots
  cases htry : compareScreenshotsTry env fs p1 p2 pd with
  | error e => rfl
  | ok r =>
    obtain ⟨c, hc⟩ := compareScreenshotsTry_ok_shape env fs p1 p2 pd r htry
    simp [hc, fsWrite, hq]

/-! ## Claim theorems for the visual pipeline -/

/-- Images of 1x1 and 1x2 pixels: unequal dimensions and unequal buffer
lengths. -/
def imgA : PNGImage := ⟨1, 1, [0, 0, 0, 255]⟩

/-- See `imgA`. -/
def imgB : PNGImage := ⟨1, 2, [0, 0, 0, 255, 255, 255, 255, 255]⟩

/-- A visual environment with a fixed date, no screenshot capability and a
trivial external differ. -/
def envV : VisualEnv := ⟨['d'], none, fun _ _ => 0, fun _ _ => []⟩

/-- Path of the first comparison input in the counterexample. -/
def pA : List Char := "a.png".toList

/-- Path of the second comparison input in the counterexample. -/
def pB : List Char := "b.png".toList

/-- Diff destination path in the counterexample. -/
def pD : List Char := "d.png".toList

/-- Filesystem holding the two unequal-size images and nothing else. -/
def fsAB : FS := fun p =>
  if p = pA then some (FileContent.png imgA)
  else if p = pB then some (FileContent.png imgB) else none

/-- C4 counterexample: comparing a 1x1 with a 1x2 image makes the internal
pixel comparison throw the size-mismatch error, but `compareScreenshots`
catches it and resolves with `false` — nothing is propagated to the caller
and no diff artifact is written. -/
theorem compareScreenshots_mismatch_not_propagated_cex :
    compareScreenshotsTry envV fsAB pA pB pD = Except.error sizeMismatchMsg ∧
    compareScreenshots envV fsAB pA pB pD = (false, fsAB) ∧
    fsAB pD = none := ⟨rfl, rfl, rfl⟩

/-- C4 amended: on input images whose decoded pixel buffers differ in length
(in particular, images with different total pixel counts), the comparison
fails internally with `pixelmatch`'s size-mismatch error, performs no pixel
comparison and writes no diff artifact — but the error is caught inside
`compareScreenshots`, which resolves with `false` instead of propagating an
`ImageDimensionMismatchError` to the caller. -/
theorem compareScreenshots_mismatch_caught (env : VisualEnv) (fs : FS)
    (image1 image2 diffImage : List Char) (img1 img2 : PNGImage)
    (h1 : readPNG fs image1 = Except.ok img1)
    (h2 : readPNG fs image2 = Except.ok img2)
    (hlen : img1.data.length ≠ img2.data.length) :
    compareScreenshotsTry env fs image1 image2 diffImage =
        Except.error sizeMismatchMsg ∧
    compareScreenshots env fs image1 image2 diffImage = (false, fs) := by
  have htry : compareScreenshotsTry env fs image1 image2 diffImage =
      Except.error sizeMismatchMsg := by
    rw [compareScreenshotsTry, h1, h2]
    simp only [pixelmatch]
    rw [if_pos (Or.inl hlen)]
  exact ⟨htry, by rw [compareScreenshots, htry]⟩

/-- C4 amended witness: the amended behaviour at the concrete 1x1 / 1x2
pair. -/
theorem compareScreenshots_mismatch_caught_witness :
    compareScreenshots envV fsAB pA pB pD = (false, fsAB) :=
  (compareScreenshots_mismatch_caught envV fsAB pA pB pD imgA imgB rfl rfl
    (by decide)).2

/-- C5: once a baseline file exists for a test name, `runVisualTests` leaves
the baseline path untouched (only current and diff paths are written); and
when the baseline is absent, the run is exactly the explicit
baseline-creation `createBaselineImage`. -/
theorem runVisualTests_baseline_preserved (env : VisualEnv) (fs : FS)
    (testName : List Char) (timeout : Nat) :
    ((fs (baselinePath testName)).isSome = true →
      runVisualTests env fs testName timeout (baselinePath testName) =
        fs (baselinePath testName)) ∧
    (fs (baselinePath testName) = none →
      runVisualTests env fs testName timeout =
        createBaselineImage env fs testName) := by
  constructor
  · intro hsome
    rw [runVisualTests]
    simp only [hsome, Bool.true_eq_false, if_false]
    cases hshot : env.screenshot with
    | none => rw [captureScreenshot, hshot]
    | some img =>
      rw [captureScreenshot, hshot]
      simp only
      rw [compareScreenshots_preserves_other_paths _ _ _ _ _ _
        (baselinePath_ne_diffPath testName testName env.currentDate)]
      have hne := baselinePath_ne_currentPath testName testName env.currentDate
      rw [currentPath] at hne
      simp [fsWrite, hne]
  · intro hnone
    rw [runVisualTests]
    simp [hnone]

/-- Filesystem with an existing baseline for test name `t`. -/
def fsP : FS := fun p =>
  if p = baselinePath ['t'] then some (FileContent.png imgA) else none

/-- The empty filesystem. -/
def fsEmpty : FS := fun _ => none

/-- C5 witness: concrete runs for an existing and for an absent baseline. -/
theorem runVisualTests_baseline_preserved_witness :
    runVisualTests envV fsP ['t'] 2000 (baselinePath ['t']) =
      fsP (baselinePath ['t']) ∧
    runVisualTests envV fsEmpty ['t'] 2000 =
      createBaselineImage envV fsEmpty ['t'] :=
  ⟨(runVisualTests_baseline_preserved envV fsP ['t'] 2000).1 (by decide),
   (runVisualTests_baseline_preserved envV fsEmpty ['t'] 2000).2 rfl⟩

/-- C9: `compareScreenshots` resolves with `false` (and leaves the filesystem
unchanged) on every internal failure — an unreadable or undecodable first or
second input, or a buffer-size mismatch detected when the pixel comparison
starts; no error reaches the caller, who observes only the not-identical
value. -/
theorem compareScreenshots_never_raises (env : VisualEnv) (fs : FS)
    (p1 p2 pd : List Char) :
    (∀ e, readPNG fs p1 = Except.error e →
      compareScreenshots env fs p1 p2 pd = (false, fs)) ∧
    (∀ e img1, readPNG fs p1 = Except.ok img1 →
      readPNG fs p2 = Except.error e →
      compareScreenshots env fs p1 p2 pd = (false, fs)) ∧
    (∀ img1 img2, readPNG fs p1 = Except.ok img1 →
      readPNG fs p2 = Except.ok img2 →
      (img1.data.length ≠ img2.data.length ∨
        img1.data.length ≠ img1.width * img1.height * 4) →
      compareScreenshots env fs p1 p2 pd = (false, fs)) := by
  refine ⟨?_, ?_, ?_⟩
  · intro e h1
    rw [compareScreenshots, compareScreenshotsTry, h1]
  · intro e img1 h1 h2
    rw [compareScreenshots, compareScreenshotsTry, h1, h2]
  · intro img1 img2 h1 h2 hbad
    have hpm : pixelmatch env img1 img2 (img1.width * img1.height * 4)
        img1.width img1.height = Except.error sizeMismatchMsg ∨
        pixelmatch env img1 img2 (img1.width * img1.height * 4)
        img1.width img1.height = Except.error dataSizeMsg := by
      rcases hbad with hbad | hbad
      · exact Or.inl (by rw [pixelmatch, if_pos (Or.inl hbad)])
      · left
        rw [pixelmatch, if_pos (Or.inr (fun heq => hbad heq.symm))]
    rw [compareScreenshots, compareScreenshotsTry, h1, h2]
    simp only
    rcases hpm with hpm | hpm <;> rw [hpm]

/-- C9 witness: a missing first input resolves the concrete comparison with
`false`. -/
theorem compareScreenshots_never_raises_witness :
    compareScreenshots envV fsEmpty pA pB pD = (false, fsEmpty) :=
  (compareScreenshots_never_raises envV fsEmpty pA pB pD).1
    (enoentMsg pA) rfl
